import Mathlib

/-
Verification of the MoQT session layer (moqt_session.cc).

This file gives a shallow embedding of the session state machine of
MoqtSession: the control-plane handlers (subscribe id validation,
MAX_SUBSCRIBE_ID, SUBSCRIBE, FETCH, session close), the outgoing
data-stream scheduler queues, the outgoing stream SendObjects loop,
the incoming data-stream partial-object reassembly, and the Backfill
duplicate suppression.  External collaborators (transport, framer,
track publisher) are modelled as explicit parameters or environment
records; machine integers are Nat since no wraparound is exercised.
-/

namespace Moqt

/-- Role of an endpoint, from moqt_messages.h as used by the session. -/
inductive MoqtRole where
  | publisher
  | subscriber
  | pubSub
deriving DecidableEq, Repr

/-- Session-level error codes used with Error and CloseSession. -/
inductive MoqtError where
  | noError
  | internalError
  | protocolViolation
  | tooManySubscribes
deriving DecidableEq, Repr

/-- Delivery order of groups within a track. -/
inductive MoqtDeliveryOrder where
  | ascending
  | descending
deriving DecidableEq, Repr

/-- Forwarding preference of a track, deciding the stream mapping unit. -/
inductive MoqtForwardingPreference where
  | trackPref
  | subgroupPref
  | datagramPref
deriving DecidableEq, Repr

/-- A (group, subgroup, object) coordinate, lexicographically ordered. -/
structure FullSequence where
  group : Nat
  subgroup : Nat
  object : Nat
deriving DecidableEq, Repr

/-- Lexicographic order on FullSequence, as a Bool for executability. -/
def FullSequence.leB (a b : FullSequence) : Bool :=
  if a.group ≠ b.group then a.group < b.group
  else if a.subgroup ≠ b.subgroup then a.subgroup < b.subgroup
  else a.object ≤ b.object

/-- A track name is a sequence of byte strings (namespace plus name). -/
abbrev FullTrackName := List String

/-- Control messages, recorded at the level of detail the claims need. -/
inductive ControlMsg where
  | clientSetup
  | serverSetup
  | subscribeMsg (subscribeId : Nat) (trackAlias : Nat) (name : FullTrackName)
  | subscribeOkMsg (subscribeId : Nat)
  | subscribeErrorMsg (subscribeId : Nat)
  | unsubscribeMsg (subscribeId : Nat)
  | subscribeDoneMsg (subscribeId : Nat)
  | fetchOkMsg (subscribeId : Nat)
  | fetchErrorMsg (subscribeId : Nat)
  | maxSubscribeIdMsg (value : Nat)
  | announceMsg (ns : FullTrackName)
deriving DecidableEq, Repr

/-- Per-upstream-track state held in the three session maps.
is_fetch distinguishes SubscribeRemoteTrack (false) from upstream
fetches (true); only SubscribeRemoteTrack values are ever created in
moqt_session.cc.  Modelled from the spec: RemoteTrack carries the
alias, id, name and the locked-in data stream type (moqt_track.h is
not under src/); acceptsDatagram models CheckDataStreamType for the
datagram stream type and inWindowFn models InWindow. -/
structure RemoteTrackEntry where
  subscribeId : Nat
  trackAlias : Nat
  fullTrackName : FullTrackName
  isFetchFlag : Bool
  acceptsDatagram : Bool
  inWindowFn : Nat → Nat → Bool

/-- The session state slice used by the control-plane claims: error
and termination bookkeeping, subscribe-id counters, the three upstream
maps, the downstream subscription and fetch id sets, and the control
messages written so far. -/
structure SessionState where
  peerRole : MoqtRole
  errorMsg : String
  closeCode : Option MoqtError
  terminatedCount : Nat
  transportOpen : Bool
  localMaxSubscribeId : Nat
  nextIncomingSubscribeId : Nat
  nextSubscribeId : Nat
  peerMaxSubscribeId : Nat
  nextRemoteTrackAlias : Nat
  upstreamByName : List (FullTrackName × RemoteTrackEntry)
  upstreamById : List (Nat × RemoteTrackEntry)
  subscribeByAlias : List (Nat × RemoteTrackEntry)
  publishedSubscriptionIds : List Nat
  subscribedTrackNames : List FullTrackName
  incomingFetchIds : List Nat
  queuedFetchOrders : List (Nat × Nat)
  sentControl : List ControlMsg

/-- Fresh session state, as set up by the MoqtSession constructor:
local_max_subscribe_id_ comes from the session parameters, every other
counter starts at zero and every container is empty. -/
def initialState (role : MoqtRole) (maxSubscribeId : Nat) : SessionState :=
  { peerRole := role
    errorMsg := ""
    closeCode := none
    terminatedCount := 0
    transportOpen := true
    localMaxSubscribeId := maxSubscribeId
    nextIncomingSubscribeId := 0
    nextSubscribeId := 0
    peerMaxSubscribeId := 0
    nextRemoteTrackAlias := 0
    upstreamByName := []
    upstreamById := []
    subscribeByAlias := []
    publishedSubscriptionIds := []
    subscribedTrackNames := []
    incomingFetchIds := []
    queuedFetchOrders := []
    sentControl := [] }

/-- MoqtSession::Error (moqt_session.cc:230).  If error_ is already
non-empty it returns immediately; otherwise it records the error,
closes the transport session with the code, and invokes
session_terminated_callback (counted in terminatedCount). -/
def MoqtSession.Error (s : SessionState) (code : MoqtError) (msg : String) :
    SessionState :=
  if s.errorMsg ≠ "" then s
  else
    { s with errorMsg := msg
             closeCode := some code
             transportOpen := false
             terminatedCount := s.terminatedCount + 1 }

/-- MoqtSession::OnSessionClosed (moqt_session.cc:160).  If error_ is
already non-empty it returns; otherwise it records the message and
invokes session_terminated_callback.  It does not itself close the
transport (the transport is already closed when this event fires). -/
def MoqtSession.OnSessionClosed (s : SessionState) (errorMessage : String) :
    SessionState :=
  if s.errorMsg ≠ "" then s
  else
    { s with errorMsg := errorMessage
             terminatedCount := s.terminatedCount + 1 }

/-- MoqtSession::SendControlMessage (moqt_session.cc:122).  When
GetControlStream() returns null (in particular after the transport
session has been closed) the message is dropped; otherwise it is
buffered unconditionally on the control stream. -/
def MoqtSession.SendControlMessage (s : SessionState) (m : ControlMsg) :
    SessionState :=
  if s.transportOpen then { s with sentControl := s.sentControl ++ [m] }
  else s

/-- MoqtSession::GrantMoreSubscribes (moqt_session.cc:618). -/
def MoqtSession.GrantMoreSubscribes (s : SessionState) (numSubscribes : Nat) :
    SessionState :=
  let s := { s with localMaxSubscribeId := s.localMaxSubscribeId + numSubscribes }
  MoqtSession.SendControlMessage s (.maxSubscribeIdMsg s.localMaxSubscribeId)

/-- MoqtSession::ValidateSubscribeId (moqt_session.cc:625).  Returns
whether the incoming SUBSCRIBE or FETCH id is accepted, together with
the updated session state. -/
def MoqtSession.ValidateSubscribeId (s : SessionState) (subscribeId : Nat) :
    Bool × SessionState :=
  if s.peerRole = .publisher then
    (false, MoqtSession.Error s .protocolViolation "Received SUBSCRIBE from publisher")
  else if s.localMaxSubscribeId ≤ subscribeId then
    (false, MoqtSession.Error s .tooManySubscribes "Received SUBSCRIBE with too large ID")
  else if subscribeId < s.nextIncomingSubscribeId then
    (false, MoqtSession.Error s .protocolViolation "Subscribe ID not monotonically increasing")
  else
    (true, { s with nextIncomingSubscribeId := subscribeId + 1 })

/-- MoqtSession::ControlStream::OnMaxSubscribeIdMessage
(moqt_session.cc:986). -/
def MoqtSession.OnMaxSubscribeIdMessage (s : SessionState) (maxSubscribeId : Nat) :
    SessionState :=
  if s.peerRole = .subscriber then
    MoqtSession.Error s .protocolViolation "Received MAX_SUBSCRIBE_ID from Subscriber"
  else if maxSubscribeId < s.peerMaxSubscribeId then
    MoqtSession.Error s .protocolViolation
      "MAX_SUBSCRIBE_ID message has lower value than previous"
  else
    { s with peerMaxSubscribeId := maxSubscribeId }

/-- MoqtSession::RemoteTrackByAlias (moqt_session.cc:549). -/
def MoqtSession.RemoteTrackByAlias (s : SessionState) (trackAlias : Nat) :
    Option RemoteTrackEntry :=
  (s.subscribeByAlias.find? (fun p => p.1 = trackAlias)).map (·.2)

/-- MoqtSession::RemoteTrackById (moqt_session.cc:557). -/
def MoqtSession.RemoteTrackById (s : SessionState) (subscribeId : Nat) :
    Option RemoteTrackEntry :=
  (s.upstreamById.find? (fun p => p.1 = subscribeId)).map (·.2)

/-- MoqtSession::RemoteTrackByName (moqt_session.cc:565). -/
def MoqtSession.RemoteTrackByName (s : SessionState) (name : FullTrackName) :
    Option RemoteTrackEntry :=
  (s.upstreamByName.find? (fun p => p.1 = name)).map (·.2)

/-- MoqtSession::Subscribe (moqt_session.cc:448).  The outgoing
SUBSCRIBE path: role, id-limit, duplicate-name and provided-alias
checks, then id and alias allocation, serialisation of the SUBSCRIBE
message, and insertion of the new SubscribeRemoteTrack into the three
upstream maps.  acceptsDatagram and inWindowFn parametrise the track
state the message determines (stream type lock-in and window); the
object-ack wrapping of the visitor has no session-state effect and is
omitted.  Note that the C++ evaluates next_remote_track_alias_++
inside value_or, so the alias counter advances even when an alias is
provided. -/
def MoqtSession.Subscribe (s : SessionState) (name : FullTrackName)
    (providedTrackAlias : Option Nat) (acceptsDatagram : Bool)
    (inWindowFn : Nat → Nat → Bool) : Bool × SessionState :=
  if s.peerRole = .subscriber then (false, s)
  else if s.peerMaxSubscribeId ≤ s.nextSubscribeId then (false, s)
  else if s.upstreamByName.any (fun p => p.1 = name) then (false, s)
  else
    if providedTrackAlias.any (fun a => s.subscribeByAlias.any (fun p => p.1 = a)) then
      (false, MoqtSession.Error s .protocolViolation "Provided track alias already in use")
    else
      let subscribeId := s.nextSubscribeId
      let trackAlias := providedTrackAlias.getD s.nextRemoteTrackAlias
      let s := { s with nextSubscribeId := subscribeId + 1
                        nextRemoteTrackAlias := s.nextRemoteTrackAlias + 1 }
      let s := MoqtSession.SendControlMessage s (.subscribeMsg subscribeId trackAlias name)
      let entry : RemoteTrackEntry :=
        { subscribeId := subscribeId
          trackAlias := trackAlias
          fullTrackName := name
          isFetchFlag := false
          acceptsDatagram := acceptsDatagram
          inWindowFn := inWindowFn }
      (true,
       { s with upstreamByName := s.upstreamByName ++ [(name, entry)]
                upstreamById := s.upstreamById ++ [(subscribeId, entry)]
                subscribeByAlias := s.subscribeByAlias ++ [(trackAlias, entry)] })

/-- MoqtSession::Unsubscribe (moqt_session.cc:362): look the track up
by name, send UNSUBSCRIBE, and erase all three map entries. -/
def MoqtSession.Unsubscribe (s : SessionState) (name : FullTrackName) :
    SessionState :=
  match MoqtSession.RemoteTrackByName s name with
  | none => s
  | some t =>
    let s := MoqtSession.SendControlMessage s (.unsubscribeMsg t.subscribeId)
    { s with upstreamByName := s.upstreamByName.filter (fun p => ¬ p.1 = name)
             upstreamById := s.upstreamById.filter (fun p => ¬ p.1 = t.subscribeId)
             subscribeByAlias := s.subscribeByAlias.filter (fun p => ¬ p.1 = t.trackAlias) }

/-- MoqtSession::ControlStream::OnSubscribeErrorMessage
(moqt_session.cc:865).  errorAllowed models
RemoteTrack::ErrorIsAllowed (no SUBSCRIBE_OK or objects seen yet,
moqt_track.h is not under src/); on kRetryTrackAlias the session
resubscribes with the peer-suggested alias before erasing the original
alias entry. -/
def MoqtSession.OnSubscribeErrorMessage (s : SessionState) (subscribeId : Nat)
    (retryTrackAlias : Bool) (suggestedTrackAlias : Nat) (errorAllowed : Bool) :
    SessionState :=
  match MoqtSession.RemoteTrackById s subscribeId with
  | none => s
  | some t =>
    if t.isFetchFlag then
      MoqtSession.Error s .protocolViolation "Received SUBSCRIBE_ERROR for a FETCH"
    else if ¬ errorAllowed then
      MoqtSession.Error s .protocolViolation
        "Received SUBSCRIBE_ERROR after SUBSCRIBE_OK or objects"
    else
      let s := { s with
        upstreamById := s.upstreamById.filter (fun p => ¬ p.1 = t.subscribeId)
        upstreamByName := s.upstreamByName.filter (fun p => ¬ p.1 = t.fullTrackName) }
      let s :=
        if retryTrackAlias then
          (MoqtSession.Subscribe s t.fullTrackName (some suggestedTrackAlias)
            t.acceptsDatagram t.inWindowFn).2
        else s
      { s with subscribeByAlias := s.subscribeByAlias.filter (fun p => ¬ p.1 = t.trackAlias) }

/-- The slice of the MoqtTrackPublisher interface the incoming
SUBSCRIBE and FETCH handlers consult. -/
structure TrackPublisherModel where
  hasData : Bool
  largest : FullSequence

/-- Environment for the incoming SUBSCRIBE and FETCH handlers:
application track lookup, fetch task creation status, and transport
stream capacity. -/
structure ControlEnv where
  getTrack : FullTrackName → Option TrackPublisherModel
  fetchTaskOk : Bool
  canOpenStream : Bool
  fetchSendOrder : Nat

/-- The incoming SUBSCRIBE message fields the handler reads. -/
structure MoqtSubscribeMsg where
  subscribeId : Nat
  trackAlias : Nat
  fullTrackName : FullTrackName
  startGroup : Option Nat
  startObject : Option Nat

/-- MoqtSession::ControlStream::OnSubscribeMessage
(moqt_session.cc:769).  Backfill and the monitoring interface hand-off
have no effect on the state slice modelled here; the accepted path
creates the PublishedSubscription (which registers the track name) and
sends SUBSCRIBE_OK. -/
def MoqtSession.OnSubscribeMessage (env : ControlEnv) (s : SessionState)
    (m : MoqtSubscribeMsg) : SessionState :=
  let r := MoqtSession.ValidateSubscribeId s m.subscribeId
  if ¬ r.1 then r.2
  else
    let s := r.2
    match env.getTrack m.fullTrackName with
    | none => MoqtSession.SendControlMessage s (.subscribeErrorMsg m.subscribeId)
    | some pub =>
      let largest : Option FullSequence := if pub.hasData then some pub.largest else none
      let startsInPreviousGroup :=
        match m.startGroup, largest with
        | some sg, some l => decide (sg < l.group)
        | _, _ => false
      if startsInPreviousGroup then
        MoqtSession.SendControlMessage s (.subscribeErrorMsg m.subscribeId)
      else if s.subscribedTrackNames.any (fun n => n = m.fullTrackName) then
        MoqtSession.Error s .protocolViolation "Duplicate subscribe for track"
      else if s.publishedSubscriptionIds.any (fun i => i = m.subscribeId) then
        MoqtSession.SendControlMessage s (.subscribeErrorMsg m.subscribeId)
      else
        let s := { s with
          publishedSubscriptionIds := s.publishedSubscriptionIds ++ [m.subscribeId]
          subscribedTrackNames := s.subscribedTrackNames ++ [m.fullTrackName] }
        MoqtSession.SendControlMessage s (.subscribeOkMsg m.subscribeId)

/-- The incoming FETCH message fields the handler reads. -/
structure MoqtFetchMsg where
  subscribeId : Nat
  fullTrackName : FullTrackName

/-- MoqtSession::ControlStream::OnFetchMessage (moqt_session.cc:1005).
On success the PublishedFetch is installed, FETCH_OK is sent, and a
stream is opened immediately or the fetch is queued in the session
scheduler by send order. -/
def MoqtSession.OnFetchMessage (env : ControlEnv) (s : SessionState)
    (m : MoqtFetchMsg) : SessionState :=
  let r := MoqtSession.ValidateSubscribeId s m.subscribeId
  if ¬ r.1 then r.2
  else
    let s := r.2
    match env.getTrack m.fullTrackName with
    | none => MoqtSession.SendControlMessage s (.fetchErrorMsg m.subscribeId)
    | some _ =>
      if ¬ env.fetchTaskOk then
        MoqtSession.SendControlMessage s (.fetchErrorMsg m.subscribeId)
      else if s.incomingFetchIds.any (fun i => i = m.subscribeId) then
        MoqtSession.SendControlMessage s (.fetchErrorMsg m.subscribeId)
      else
        let s := { s with incomingFetchIds := s.incomingFetchIds ++ [m.subscribeId] }
        let s := MoqtSession.SendControlMessage s (.fetchOkMsg m.subscribeId)
        if env.canOpenStream then s
        else
          { s with queuedFetchOrders :=
              s.queuedFetchOrders ++ [(env.fetchSendOrder, m.subscribeId)] }

/-- Outcome of OnDatagramReceived, at the branch granularity of
moqt_session.cc:191. -/
inductive DatagramResult where
  | malformed
  | noTrack
  | wrongStreamType
  | outOfWindow
  | checkFailed
  | delivered
deriving DecidableEq, Repr

/-- Parsed OBJECT datagram, with parsedOk standing for ParseDatagram
returning a payload. -/
structure DatagramMsg where
  parsedOk : Bool
  trackAlias : Nat
  groupId : Nat
  objectId : Nat

/-- MoqtSession::OnDatagramReceived (moqt_session.cc:191).  The result
component reports which branch ran; checkFailed corresponds to the
assertion QUICHE_CHECK of not track is_fetch failing. -/
def MoqtSession.OnDatagramReceived (s : SessionState) (d : DatagramMsg) :
    SessionState × DatagramResult :=
  if ¬ d.parsedOk then
    (MoqtSession.Error s .protocolViolation "Malformed datagram received", .malformed)
  else
    match MoqtSession.RemoteTrackByAlias s d.trackAlias with
    | none => (s, .noTrack)
    | some t =>
      if ¬ t.acceptsDatagram then
        (MoqtSession.Error s .protocolViolation "Received DATAGRAM for non-datagram track",
         .wrongStreamType)
      else if ¬ t.inWindowFn d.groupId d.objectId then (s, .outOfWindow)
      else if t.isFetchFlag then (s, .checkFailed)
      else (s, .delivered)

/-- Session lifetime events relevant to claim C4: an internal Error
call, the transport reporting the underlying session closed, and an
attempt to send a control message. -/
inductive SessionEvent where
  | errorCall (code : MoqtError) (msg : String)
  | sessionClosed (msg : String)
  | sendMsg (m : ControlMsg)

/-- Whether an event is one of the two close entry points. -/
def SessionEvent.isClose : SessionEvent → Bool
  | .errorCall _ _ => true
  | .sessionClosed _ => true
  | .sendMsg _ => false

/-- The error message carried by a close event. -/
def SessionEvent.msgOf : SessionEvent → String
  | .errorCall _ m => m
  | .sessionClosed m => m
  | .sendMsg _ => ""

/-- One event step.  The sessionClosed event is delivered by the
transport after the underlying session has been closed, so the control
stream is no longer retrievable when the handler runs. -/
def stepEvent (s : SessionState) : SessionEvent → SessionState
  | .errorCall code msg => MoqtSession.Error s code msg
  | .sessionClosed msg =>
      MoqtSession.OnSessionClosed { s with transportOpen := false } msg
  | .sendMsg m => MoqtSession.SendControlMessage s m

/-- Fold a list of events over the session state. -/
def runEvents (s : SessionState) : List SessionEvent → SessionState
  | [] => s
  | e :: rest => runEvents (stepEvent s e) rest

/-- Modelled from the spec: the send-order helpers live in
moqt_priority.h, which is not under src/.  Per the spec, a send order
is a 64-bit value with the subscriber priority in the high bits above
a 56-bit remainder holding publisher priority, group id and subgroup
id; UpdateSendOrderForSubscriberPriority replaces the subscriber
priority bits (priority 0 masks them out), and FinalizeSendOrder
re-applies the subscriber priority bits onto a partial value. -/
def updateSendOrderForSubscriberPriority (sendOrder : Nat)
    (subscriberPriority : Nat) : Nat :=
  (subscriberPriority % 256) * 2 ^ 56 + sendOrder % 2 ^ 56

/-- Modelled from the spec: SendOrderForStream composes subscriber
priority, publisher priority, group id, then the subgroup id, the
latter inverted for ascending delivery (moqt_priority.h is not under
src/). -/
def sendOrderForStream (subscriberPriority publisherPriority groupId subgroupId : Nat)
    (deliveryOrder : MoqtDeliveryOrder) : Nat :=
  let subgroupBits :=
    match deliveryOrder with
    | .ascending => 2 ^ 22 - 1 - subgroupId % 2 ^ 22
    | .descending => subgroupId % 2 ^ 22
  updateSendOrderForSubscriberPriority
    ((publisherPriority % 256) * 2 ^ 48 + (groupId % 2 ^ 26) * 2 ^ 22 + subgroupBits)
    subscriberPriority

/-- The PublishedSubscription slice driving the outgoing stream
queues: identity, the priority inputs of GetSendOrder, and
queued_outgoing_data_streams_, a btree multimap from
subscriber-priority-masked send order to the first object of the
queued stream, kept in ascending key order (rbegin is the last
element). -/
structure PublishedSubscriptionModel where
  subscriptionId : Nat
  subscriberPriority : Nat
  publisherPriority : Nat
  deliveryOrder : MoqtDeliveryOrder
  queuedOutgoingDataStreams : List (Nat × FullSequence)
deriving DecidableEq, Repr

/-- PublishedSubscription::GetSendOrder (moqt_session.cc:1328), for a
non-datagram track. -/
def PublishedSubscriptionModel.GetSendOrder (sub : PublishedSubscriptionModel)
    (sequence : FullSequence) : Nat :=
  sendOrderForStream sub.subscriberPriority sub.publisherPriority
    sequence.group sequence.subgroup sub.deliveryOrder

/-- PublishedSubscription::FinalizeSendOrder: re-apply the current
subscriber priority bits (declared in moqt_session.h; modelled from
the spec). -/
def PublishedSubscriptionModel.FinalizeSendOrder
    (sub : PublishedSubscriptionModel) (sendOrder : Nat) : Nat :=
  updateSendOrderForSubscriberPriority sendOrder sub.subscriberPriority

/-- Insertion into the ascending-ordered multimap of queued outgoing
streams. -/
def mmInsert (key : Nat) (value : FullSequence) :
    List (Nat × FullSequence) → List (Nat × FullSequence)
  | [] => [(key, value)]
  | (k, v) :: rest =>
    if key < k then (key, value) :: (k, v) :: rest
    else (k, v) :: mmInsert key value rest

/-- Insertion into the ascending-ordered set of
(send order, subscribe id) pairs. -/
def setInsert (entry : Nat × Nat) : List (Nat × Nat) → List (Nat × Nat)
  | [] => [entry]
  | e :: rest =>
    if entry.1 < e.1 ∨ (entry.1 = e.1 ∧ entry.2 < e.2) then entry :: e :: rest
    else if entry = e then e :: rest
    else e :: setInsert entry rest

/-- The session state slice for the cross-subscription stream queue:
the published subscriptions and
subscribes_with_queued_outgoing_data_streams_, an ordered set of
(send order, subscribe id) whose last element is the highest. -/
structure SchedulerState where
  subs : List PublishedSubscriptionModel
  sessionQueue : List (Nat × Nat)
deriving DecidableEq, Repr

/-- Replace the subscription with the given id. -/
def replaceSub (st : SchedulerState) (id : Nat)
    (sub : PublishedSubscriptionModel) : SchedulerState :=
  { st with subs := st.subs.map (fun x => if x.subscriptionId = id then sub else x) }

/-- MoqtSession::UpdateQueuedSendOrder (moqt_session.cc:601). -/
def UpdateQueuedSendOrder (st : SchedulerState) (subscribeId : Nat)
    (oldSendOrder newSendOrder : Option Nat) : SchedulerState :=
  if oldSendOrder = newSendOrder then st
  else
    let q :=
      match oldSendOrder with
      | some o => st.sessionQueue.filter (fun p => ¬ p = (o, subscribeId))
      | none => st.sessionQueue
    let q :=
      match newSendOrder with
      | some n => setInsert (n, subscribeId) q
      | none => q
    { st with sessionQueue := q }

/-- MoqtSession::PublishedSubscription::AddQueuedOutgoingDataStream
(moqt_session.cc:1345): record the queued stream under the
priority-masked send order, then update the session queue when the
previous head send order was below the new full send order. -/
def AddQueuedOutgoingDataStream (st : SchedulerState) (id : Nat)
    (firstObject : FullSequence) : SchedulerState :=
  match st.subs.find? (fun sub => sub.subscriptionId = id) with
  | none => st
  | some sub =>
    let startSendOrder : Option Nat :=
      (sub.queuedOutgoingDataStreams.getLast?).map (·.1)
    let sendOrder := sub.GetSendOrder firstObject
    let q' :=
      mmInsert (updateSendOrderForSubscriberPriority sendOrder 0) firstObject
        sub.queuedOutgoingDataStreams
    let sub' := { sub with queuedOutgoingDataStreams := q' }
    let st := replaceSub st id sub'
    match startSendOrder with
    | none => UpdateQueuedSendOrder st id none (some sendOrder)
    | some sso =>
      if sso < sendOrder then
        UpdateQueuedSendOrder st id (some (sub.FinalizeSendOrder sso)) (some sendOrder)
      else st

/-- MoqtSession::PublishedSubscription::NextQueuedOutgoingDataStream
(moqt_session.cc:1365): pop the highest queued stream, returning its
first object and refreshing the session queue entry. -/
def NextQueuedOutgoingDataStream (st : SchedulerState) (id : Nat) :
    SchedulerState × FullSequence :=
  match st.subs.find? (fun sub => sub.subscriptionId = id) with
  | none => (st, ⟨0, 0, 0⟩)
  | some sub =>
    match sub.queuedOutgoingDataStreams.getLast? with
    | none => (st, ⟨0, 0, 0⟩)
    | some (k, firstObject) =>
      let oldSendOrder := sub.FinalizeSendOrder k
      let q := sub.queuedOutgoingDataStreams.dropLast
      let sub' := { sub with queuedOutgoingDataStreams := q }
      let st := replaceSub st id sub'
      match q.getLast? with
      | none => (UpdateQueuedSendOrder st id (some oldSendOrder) none, firstObject)
      | some (k', _) =>
        let newSendOrder := sub'.FinalizeSendOrder k'
        if oldSendOrder ≠ newSendOrder then
          (UpdateQueuedSendOrder st id (some oldSendOrder) (some newSendOrder), firstObject)
        else (st, firstObject)

/-- MoqtSession::PublishedSubscription::set_subscriber_priority
(moqt_session.cc:1214). -/
def SetSubscriberPriority (st : SchedulerState) (id : Nat) (priority : Nat) :
    SchedulerState :=
  match st.subs.find? (fun sub => sub.subscriptionId = id) with
  | none => st
  | some sub =>
    if priority = sub.subscriberPriority then st
    else
      match sub.queuedOutgoingDataStreams.getLast? with
      | none => replaceSub st id { sub with subscriberPriority := priority }
      | some (k, _) =>
        let oldSendOrder := sub.FinalizeSendOrder k
        let sub' := { sub with subscriberPriority := priority }
        let st := replaceSub st id sub'
        UpdateQueuedSendOrder st id (some oldSendOrder)
          (some (sub'.FinalizeSendOrder oldSendOrder))

/-- The finalized send order of the head (highest entry) of a
subscription queue, if the queue is non-empty. -/
def subHeadOrder (sub : PublishedSubscriptionModel) : Option Nat :=
  (sub.queuedOutgoingDataStreams.getLast?).map (fun p => sub.FinalizeSendOrder p.1)

/-- The maximum over the finalized head send orders of all
subscriptions with a non-empty queue. -/
def maxHeadOrder (st : SchedulerState) : Option Nat :=
  st.subs.foldr
    (fun sub acc =>
      match subHeadOrder sub, acc with
      | some h, some m => some (max h m)
      | some h, none => some h
      | none, acc => acc)
    none

/-- The claimed invariant of the cross-subscription queue: it is
non-empty iff some subscription has a non-empty per-subscription
queue, and the send order of its highest entry equals the maximum over
the finalized per-subscription head send orders. -/
def schedInvariantB (st : SchedulerState) : Bool :=
  match st.sessionQueue.getLast?, maxHeadOrder st with
  | some (o, _), some m => o = m
  | none, none => true
  | _, _ => false

/-- A cached object as handed out by the track publisher. -/
structure PublishedObject where
  sequence : FullSequence
  finAfterThis : Bool
  payload : String
deriving DecidableEq, Repr

/-- Environment of OutgoingDataStream::SendObjects: the publisher
cache, the subscription window, the send order the subscription
computes for a sequence, and the track forwarding preference. -/
structure OutgoingEnv where
  cache : FullSequence → Option PublishedObject
  inWindow : FullSequence → Bool
  sendOrder : FullSequence → Nat
  forwardingPreference : MoqtForwardingPreference

/-- The member state of an OutgoingDataStream that SendObjects
mutates. -/
structure OutgoingCursor where
  nextObject : FullSequence
  headerWritten : Bool
deriving DecidableEq, Repr

/-- One successful WriteObjectToStream call: whether the stream header
was included, the sequence the loop requested from the cache, the
object written, and the FIN flag. -/
structure WriteRec where
  isFirstOnStream : Bool
  requested : FullSequence
  obj : PublishedObject
  fin : Bool
deriving DecidableEq, Repr

/-- Observable effects of one SendObjects call: the objects written,
the SetPriority send orders issued, and whether a pure FIN was sent
because next_object_ left the window. -/
structure OutgoingTrace where
  writes : List WriteRec
  priorities : List Nat
  finSent : Bool
deriving DecidableEq, Repr

/-- MoqtSession::OutgoingDataStream::SendObjects
(moqt_session.cc:1471).  The capacity argument models how many more
writes the stream accepts before CanWrite() turns false; per the
transport contract a write succeeds whenever CanWrite() was true.  The
loop: stop when the cache has nothing for next_object_; send FIN and
stop when next_object_ left the window; otherwise update the stream
priority, write header (first write only) and payload with the object
fin_after_this flag, and set next_object_.object to one past the
object the cache returned. -/
def SendObjects (env : OutgoingEnv) : Nat → OutgoingCursor → OutgoingCursor × OutgoingTrace
  | 0, c => (c, ⟨[], [], false⟩)
  | capacity + 1, c =>
    match env.cache c.nextObject with
    | none => (c, ⟨[], [], false⟩)
    | some obj =>
      if ¬ env.inWindow c.nextObject then (c, ⟨[], [], true⟩)
      else
        let priority := env.sendOrder c.nextObject
        if env.forwardingPreference = .datagramPref then (c, ⟨[], [priority], false⟩)
        else
          let w : WriteRec := ⟨!c.headerWritten, c.nextObject, obj, obj.finAfterThis⟩
          let c' : OutgoingCursor :=
            ⟨{ c.nextObject with object := obj.sequence.object + 1 }, true⟩
          let r := SendObjects env capacity c'
          (r.1, ⟨w :: r.2.writes, priority :: r.2.priorities, r.2.finSent⟩)

/-- How the fragment handler resolved the track for one object
message: no track for the alias, stream type mismatch, object outside
the window, or deliverable (with or without a visitor attached). -/
inductive FragmentResolution where
  | noTrack
  | wrongStreamType
  | outOfWindow
  | deliverable (hasVisitor : Bool)
deriving DecidableEq, Repr

/-- Environment of IncomingDataStream::OnObjectMessage: how the
session resolves and windows each (group, object) coordinate. -/
structure IncomingEnv where
  resolve : Nat → Nat → FragmentResolution

/-- Member state of an IncomingDataStream: the partial-object scratch
buffer and whether the session has been poisoned. -/
structure IncomingStreamState where
  partialObject : String
  sessionErrored : Bool
deriving DecidableEq, Repr

/-- One fragment of an object as surfaced by the data stream parser. -/
structure Fragment where
  groupId : Nat
  objectId : Nat
  payload : String
  endOfMessage : Bool
deriving DecidableEq, Repr

/-- A visitor OnObjectFragment invocation. -/
structure FragmentDelivery where
  groupId : Nat
  objectId : Nat
  payload : String
  endOfMessage : Bool
deriving DecidableEq, Repr

/-- MoqtSession::IncomingDataStream::OnObjectMessage
(moqt_session.cc:1086), for a subscribe data stream.  When
deliver_partial_objects is false, non-final fragments are appended to
the scratch buffer; on the final fragment the buffered bytes (if any)
are prepended to the payload.  The scratch buffer is cleared only on
the path that reaches the end of the function. -/
def OnObjectMessage (deliverPartialObjects : Bool) (env : IncomingEnv)
    (s : IncomingStreamState) (f : Fragment) :
    IncomingStreamState × Option FragmentDelivery :=
  if ¬ deliverPartialObjects ∧ ¬ f.endOfMessage then
    ({ s with partialObject := s.partialObject ++ f.payload }, none)
  else
    let s :=
      if ¬ deliverPartialObjects ∧ s.partialObject ≠ "" then
        { s with partialObject := s.partialObject ++ f.payload }
      else s
    let payload :=
      if ¬ deliverPartialObjects ∧ s.partialObject ≠ "" then s.partialObject
      else f.payload
    match env.resolve f.groupId f.objectId with
    | .noTrack => (s, none)
    | .wrongStreamType => ({ s with sessionErrored := true }, none)
    | .outOfWindow => (s, none)
    | .deliverable hasVisitor =>
      let d :=
        if hasVisitor then
          some (⟨f.groupId, f.objectId, payload, f.endOfMessage⟩ : FragmentDelivery)
        else none
      ({ s with partialObject := "" }, d)

/-- Run a list of fragments through the handler, collecting the
visitor deliveries. -/
def runFragments (deliverPartialObjects : Bool) (env : IncomingEnv)
    (s : IncomingStreamState) :
    List Fragment → IncomingStreamState × List FragmentDelivery
  | [] => (s, [])
  | f :: rest =>
    let r := OnObjectMessage deliverPartialObjects env s f
    let r' := runFragments deliverPartialObjects env r.1 rest
    (r'.1, (r.2.map (fun d => [d])).getD [] ++ r'.2)

/-- Modelled from the spec: ReducedSequenceIndex (moqt_subscribe_windows.h
is not under src/) reduces a sequence to its stream mapping unit: one
stream per (group, subgroup) for the subgroup preference, one stream
for the whole track for the track preference, and per-object for the
datagram preference. -/
def reducedSequenceIndex (pref : MoqtForwardingPreference)
    (s : FullSequence) : Nat × Nat :=
  match pref with
  | .trackPref => (0, 0)
  | .subgroupPref => (s.group, s.subgroup)
  | .datagramPref => (s.group, s.object)

/-- The loop of PublishedSubscription::Backfill (moqt_session.cc:1298)
with its already_opened set, returning the sequences passed to
OnNewObjectAvailable in order. -/
def backfillLoop (pref : MoqtForwardingPreference) :
    List FullSequence → List (Nat × Nat) → List FullSequence
  | [], _ => []
  | seq :: rest, opened =>
    let idx := reducedSequenceIndex pref seq
    if idx ∈ opened then backfillLoop pref rest opened
    else seq :: backfillLoop pref rest (idx :: opened)

/-- MoqtSession::PublishedSubscription::Backfill
(moqt_session.cc:1298): objects is the sorted cache listing returned
by GetCachedObjectsInRange(window start, publisher largest). -/
def Backfill (pref : MoqtForwardingPreference)
    (objects : List FullSequence) : List FullSequence :=
  backfillLoop pref objects []

/-- Session states reachable through the operations of
moqt_session.cc modelled in this file, starting from a fresh
session. -/
inductive Reachable : SessionState → Prop
  | init (role : MoqtRole) (maxSubscribeId : Nat) :
      Reachable (initialState role maxSubscribeId)
  | errorCall {s : SessionState} (code : MoqtError) (msg : String) :
      Reachable s → Reachable (MoqtSession.Error s code msg)
  | sessionClosed {s : SessionState} (msg : String) :
      Reachable s → Reachable (MoqtSession.OnSessionClosed s msg)
  | sendControl {s : SessionState} (m : ControlMsg) :
      Reachable s → Reachable (MoqtSession.SendControlMessage s m)
  | grantMore {s : SessionState} (n : Nat) :
      Reachable s → Reachable (MoqtSession.GrantMoreSubscribes s n)
  | validateId {s : SessionState} (id : Nat) :
      Reachable s → Reachable (MoqtSession.ValidateSubscribeId s id).2
  | maxSubscribeId {s : SessionState} (v : Nat) :
      Reachable s → Reachable (MoqtSession.OnMaxSubscribeIdMessage s v)
  | subscribeCall {s : SessionState} (name : FullTrackName)
      (providedTrackAlias : Option Nat) (acceptsDatagram : Bool)
      (inWindowFn : Nat → Nat → Bool) :
      Reachable s →
      Reachable (MoqtSession.Subscribe s name providedTrackAlias acceptsDatagram inWindowFn).2
  | unsubscribeCall {s : SessionState} (name : FullTrackName) :
      Reachable s → Reachable (MoqtSession.Unsubscribe s name)
  | subscribeErrorMsg {s : SessionState} (subscribeId : Nat)
      (retryTrackAlias : Bool) (suggestedTrackAlias : Nat) (errorAllowed : Bool) :
      Reachable s →
      Reachable (MoqtSession.OnSubscribeErrorMessage s subscribeId retryTrackAlias
        suggestedTrackAlias errorAllowed)
  | subscribeMsg {s : SessionState} (env : ControlEnv) (m : MoqtSubscribeMsg) :
      Reachable s → Reachable (MoqtSession.OnSubscribeMessage env s m)
  | fetchMsg {s : SessionState} (env : ControlEnv) (m : MoqtFetchMsg) :
      Reachable s → Reachable (MoqtSession.OnFetchMessage env s m)
  | datagram {s : SessionState} (d : DatagramMsg) :
      Reachable s → Reachable (MoqtSession.OnDatagramReceived s d).1

/-- A sample upstream track entry used in concrete instantiations. -/
def sampleEntry : RemoteTrackEntry :=
  { subscribeId := 0
    trackAlias := 4
    fullTrackName := ["ns", "t"]
    isFetchFlag := false
    acceptsDatagram := true
    inWindowFn := fun _ _ => true }

/-- A session whose peer allows five subscribes and already has the
track alias 4 in use. -/
def aliasBusyState : SessionState :=
  { initialState .pubSub 10 with
      peerMaxSubscribeId := 5
      subscribeByAlias := [(4, sampleEntry)] }

/-- A published subscription with subscriber priority 1, descending
delivery and an empty stream queue. -/
def prioritySub : PublishedSubscriptionModel :=
  { subscriptionId := 7
    subscriberPriority := 1
    publisherPriority := 0
    deliveryOrder := .descending
    queuedOutgoingDataStreams := [] }

/-- A scheduler state holding only prioritySub, with nothing queued. -/
def emptyQueueSched : SchedulerState :=
  { subs := [prioritySub], sessionQueue := [] }

/-- The expected header flags of the writes of one stream starting
with no header written: the first write carries the header, no later
one does. -/
def headerFlags : Nat → List Bool
  | 0 => []
  | n + 1 => true :: List.replicate n false

/-- An outgoing environment whose cache answers the request for
object (0, 0, 0) with the later object (0, 0, 5), as the publisher
contract permits (the code checks next_object_ at most the returned
sequence). -/
def skipCacheEnv : OutgoingEnv :=
  { cache := fun seq =>
      if seq = ⟨0, 0, 0⟩ then some ⟨⟨0, 0, 5⟩, false, "p"⟩ else none
    inWindow := fun _ => true
    sendOrder := fun _ => 11
    forwardingPreference := .subgroupPref }

/-- An outgoing environment with two consecutive cached objects, the
second of which carries fin_after_this. -/
def twoObjectEnv : OutgoingEnv :=
  { cache := fun seq =>
      if seq = ⟨0, 0, 0⟩ then some ⟨⟨0, 0, 0⟩, false, "p0"⟩
      else if seq = ⟨0, 0, 1⟩ then some ⟨⟨0, 0, 1⟩, true, "p1"⟩
      else none
    inWindow := fun _ => true
    sendOrder := fun seq => 20 + seq.object
    forwardingPreference := .subgroupPref }

/-- An incoming environment where object (0, 0) is out of the window
and object (0, 1) is deliverable to a visitor. -/
def leakEnv : IncomingEnv :=
  ⟨fun g o => if g = 0 ∧ o = 0 then .outOfWindow else .deliverable true⟩

/-- A stream carrying two two-fragment objects: the dropped (0, 0) in
fragments ab and cd, then the deliverable (0, 1) in fragments ef and
gh. -/
def leakFragments : List Fragment :=
  [⟨0, 0, "ab", false⟩, ⟨0, 0, "cd", true⟩, ⟨0, 1, "ef", false⟩, ⟨0, 1, "gh", true⟩]

/-- A reachable session: fresh pub-sub session, peer grants three
subscribes, then one outgoing subscribe installs alias 0. -/
def oneSubscribeState : SessionState :=
  (MoqtSession.Subscribe
    (MoqtSession.OnMaxSubscribeIdMessage (initialState .pubSub 5) 3)
    ["ns", "a"] none true (fun _ _ => true)).2

end Moqt

namespace Moqt

/-- Claim C1: for incoming SUBSCRIBE or FETCH, an id below
next_incoming_subscribe_id_ is rejected with a fatal ProtocolViolation
whose reason is "Subscribe ID not monotonically increasing"; on
acceptance next_incoming_subscribe_id_ becomes id + 1, so it always
exceeds the accepted id, and across any call it never decreases.  The
hypotheses restrict to a session that can accept subscribes: the peer
is not publisher-only, the session is not already closed, and
next_incoming_subscribe_id_ does not exceed local_max_subscribe_id_
(which holds in every reachable state, since ids are only accepted
strictly below local_max_subscribe_id_). -/
theorem validateSubscribeId_strictly_increasing (s : SessionState) (id : Nat)
    (hrole : s.peerRole ≠ .publisher) (herr : s.errorMsg = "")
    (hinv : s.nextIncomingSubscribeId ≤ s.localMaxSubscribeId) :
    (id < s.nextIncomingSubscribeId →
      (MoqtSession.ValidateSubscribeId s id).1 = false ∧
      (MoqtSession.ValidateSubscribeId s id).2.errorMsg =
        "Subscribe ID not monotonically increasing" ∧
      (MoqtSession.ValidateSubscribeId s id).2.closeCode = some .protocolViolation) ∧
    ((MoqtSession.ValidateSubscribeId s id).1 = true →
      (MoqtSession.ValidateSubscribeId s id).2.nextIncomingSubscribeId = id + 1 ∧
      id < (MoqtSession.ValidateSubscribeId s id).2.nextIncomingSubscribeId) ∧
    s.nextIncomingSubscribeId ≤
      (MoqtSession.ValidateSubscribeId s id).2.nextIncomingSubscribeId := by
  by_cases h2 : s.localMaxSubscribeId ≤ id <;>
    by_cases h3 : id < s.nextIncomingSubscribeId <;>
      simp [MoqtSession.ValidateSubscribeId, MoqtSession.Error, hrole, h2, h3, herr] <;>
        omega

/-- Concrete instantiation of validateSubscribeId_strictly_increasing:
a fresh pub-sub session with local maximum 10 accepting id 3. -/
theorem validateSubscribeId_strictly_increasing_witness :
    (3 < (initialState .pubSub 10).nextIncomingSubscribeId →
      (MoqtSession.ValidateSubscribeId (initialState .pubSub 10) 3).1 = false ∧
      (MoqtSession.ValidateSubscribeId (initialState .pubSub 10) 3).2.errorMsg =
        "Subscribe ID not monotonically increasing" ∧
      (MoqtSession.ValidateSubscribeId (initialState .pubSub 10) 3).2.closeCode =
        some .protocolViolation) ∧
    ((MoqtSession.ValidateSubscribeId (initialState .pubSub 10) 3).1 = true →
      (MoqtSession.ValidateSubscribeId (initialState .pubSub 10) 3).2.nextIncomingSubscribeId =
        3 + 1 ∧
      3 < (MoqtSession.ValidateSubscribeId (initialState .pubSub 10) 3).2.nextIncomingSubscribeId) ∧
    (initialState .pubSub 10).nextIncomingSubscribeId ≤
      (MoqtSession.ValidateSubscribeId (initialState .pubSub 10) 3).2.nextIncomingSubscribeId :=
  validateSubscribeId_strictly_increasing (initialState .pubSub 10) 3
    (by decide) rfl (by decide)

/-- Claim C10: an incoming SUBSCRIBE or FETCH whose subscribe_id is at
least local_max_subscribe_id_ closes the session with
kTooManySubscribes, and no PublishedSubscription or PublishedFetch is
created for the id.  As in C1, the hypotheses restrict to a session
that could otherwise accept the message (peer not publisher-only,
session not already closed). -/
theorem tooManySubscribes_closes_session (env : ControlEnv) (s : SessionState)
    (msub : MoqtSubscribeMsg) (mfetch : MoqtFetchMsg)
    (hrole : s.peerRole ≠ .publisher) (herr : s.errorMsg = "")
    (hsub : s.localMaxSubscribeId ≤ msub.subscribeId)
    (hfetch : s.localMaxSubscribeId ≤ mfetch.subscribeId) :
    (MoqtSession.OnSubscribeMessage env s msub).closeCode = some .tooManySubscribes ∧
    (MoqtSession.OnSubscribeMessage env s msub).errorMsg =
      "Received SUBSCRIBE with too large ID" ∧
    (MoqtSession.OnSubscribeMessage env s msub).publishedSubscriptionIds =
      s.publishedSubscriptionIds ∧
    (MoqtSession.OnFetchMessage env s mfetch).closeCode = some .tooManySubscribes ∧
    (MoqtSession.OnFetchMessage env s mfetch).errorMsg =
      "Received SUBSCRIBE with too large ID" ∧
    (MoqtSession.OnFetchMessage env s mfetch).incomingFetchIds = s.incomingFetchIds := by
  simp [MoqtSession.OnSubscribeMessage, MoqtSession.OnFetchMessage,
    MoqtSession.ValidateSubscribeId, MoqtSession.Error, hrole, hsub, hfetch, herr]

/-- Concrete instantiation of tooManySubscribes_closes_session: a
fresh session with local maximum 2 receiving SUBSCRIBE id 2 and FETCH
id 7. -/
theorem tooManySubscribes_closes_session_witness :
    (MoqtSession.OnSubscribeMessage ⟨fun _ => none, true, true, 0⟩
        (initialState .pubSub 2) ⟨2, 9, ["ns", "t"], none, none⟩).closeCode =
      some .tooManySubscribes ∧
    (MoqtSession.OnSubscribeMessage ⟨fun _ => none, true, true, 0⟩
        (initialState .pubSub 2) ⟨2, 9, ["ns", "t"], none, none⟩).errorMsg =
      "Received SUBSCRIBE with too large ID" ∧
    (MoqtSession.OnSubscribeMessage ⟨fun _ => none, true, true, 0⟩
        (initialState .pubSub 2) ⟨2, 9, ["ns", "t"], none, none⟩).publishedSubscriptionIds =
      (initialState .pubSub 2).publishedSubscriptionIds ∧
    (MoqtSession.OnFetchMessage ⟨fun _ => none, true, true, 0⟩
        (initialState .pubSub 2) ⟨7, ["ns", "t"]⟩).closeCode = some .tooManySubscribes ∧
    (MoqtSession.OnFetchMessage ⟨fun _ => none, true, true, 0⟩
        (initialState .pubSub 2) ⟨7, ["ns", "t"]⟩).errorMsg =
      "Received SUBSCRIBE with too large ID" ∧
    (MoqtSession.OnFetchMessage ⟨fun _ => none, true, true, 0⟩
        (initialState .pubSub 2) ⟨7, ["ns", "t"]⟩).incomingFetchIds =
      (initialState .pubSub 2).incomingFetchIds :=
  tooManySubscribes_closes_session ⟨fun _ => none, true, true, 0⟩
    (initialState .pubSub 2) ⟨2, 9, ["ns", "t"], none, none⟩ ⟨7, ["ns", "t"]⟩
    (by decide) rfl (by decide) (by decide)

/-- Claim C2, counterexample: the claim says only the subscriber peer
may send MAX_SUBSCRIBE_ID and that a non-decreasing value from it is
accepted and stored; but on a session whose peer role is subscriber,
OnMaxSubscribeIdMessage with value 5 (not below the stored 0) closes
the session with ProtocolViolation and does not store the value. -/
theorem onMaxSubscribeId_subscriber_sender_rejected :
    (MoqtSession.OnMaxSubscribeIdMessage (initialState .subscriber 10) 5).errorMsg =
      "Received MAX_SUBSCRIBE_ID from Subscriber" ∧
    (MoqtSession.OnMaxSubscribeIdMessage (initialState .subscriber 10) 5).closeCode =
      some .protocolViolation ∧
    (MoqtSession.OnMaxSubscribeIdMessage (initialState .subscriber 10) 5).peerMaxSubscribeId
      ≠ 5 := by
  refine ⟨rfl, rfl, ?_⟩
  decide

/-- Claim C2, amended: only a peer that is NOT subscriber-only may
send MAX_SUBSCRIBE_ID.  A subscriber peer role, or a value strictly
below the stored peer_max_subscribe_id_, closes the session with
ProtocolViolation and leaves the stored value unchanged; a value equal
to or above the previous one from a non-subscriber peer is stored. -/
theorem onMaxSubscribeId_role_and_monotonicity (s : SessionState) (v : Nat)
    (herr : s.errorMsg = "") :
    (s.peerRole = .subscriber →
      (MoqtSession.OnMaxSubscribeIdMessage s v).errorMsg =
        "Received MAX_SUBSCRIBE_ID from Subscriber" ∧
      (MoqtSession.OnMaxSubscribeIdMessage s v).closeCode = some .protocolViolation ∧
      (MoqtSession.OnMaxSubscribeIdMessage s v).peerMaxSubscribeId =
        s.peerMaxSubscribeId) ∧
    (s.peerRole ≠ .subscriber → v < s.peerMaxSubscribeId →
      (MoqtSession.OnMaxSubscribeIdMessage s v).errorMsg =
        "MAX_SUBSCRIBE_ID message has lower value than previous" ∧
      (MoqtSession.OnMaxSubscribeIdMessage s v).closeCode = some .protocolViolation ∧
      (MoqtSession.OnMaxSubscribeIdMessage s v).peerMaxSubscribeId =
        s.peerMaxSubscribeId) ∧
    (s.peerRole ≠ .subscriber → s.peerMaxSubscribeId ≤ v →
      (MoqtSession.OnMaxSubscribeIdMessage s v).peerMaxSubscribeId = v ∧
      (MoqtSession.OnMaxSubscribeIdMessage s v).errorMsg = "") := by
  by_cases h1 : s.peerRole = .subscriber <;>
    by_cases h2 : v < s.peerMaxSubscribeId <;>
      simp [MoqtSession.OnMaxSubscribeIdMessage, MoqtSession.Error, h1, h2, herr]

/-- Concrete instantiation of onMaxSubscribeId_role_and_monotonicity:
a fresh session with a pub-sub peer receiving value 5. -/
theorem onMaxSubscribeId_role_and_monotonicity_witness :
    ((initialState .pubSub 10).peerRole = .subscriber →
      (MoqtSession.OnMaxSubscribeIdMessage (initialState .pubSub 10) 5).errorMsg =
        "Received MAX_SUBSCRIBE_ID from Subscriber" ∧
      (MoqtSession.OnMaxSubscribeIdMessage (initialState .pubSub 10) 5).closeCode =
        some .protocolViolation ∧
      (MoqtSession.OnMaxSubscribeIdMessage (initialState .pubSub 10) 5).peerMaxSubscribeId =
        (initialState .pubSub 10).peerMaxSubscribeId) ∧
    ((initialState .pubSub 10).peerRole ≠ .subscriber →
      5 < (initialState .pubSub 10).peerMaxSubscribeId →
      (MoqtSession.OnMaxSubscribeIdMessage (initialState .pubSub 10) 5).errorMsg =
        "MAX_SUBSCRIBE_ID message has lower value than previous" ∧
      (MoqtSession.OnMaxSubscribeIdMessage (initialState .pubSub 10) 5).closeCode =
        some .protocolViolation ∧
      (MoqtSession.OnMaxSubscribeIdMessage (initialState .pubSub 10) 5).peerMaxSubscribeId =
        (initialState .pubSub 10).peerMaxSubscribeId) ∧
    ((initialState .pubSub 10).peerRole ≠ .subscriber →
      (initialState .pubSub 10).peerMaxSubscribeId ≤ 5 →
      (MoqtSession.OnMaxSubscribeIdMessage (initialState .pubSub 10) 5).peerMaxSubscribeId =
        5 ∧
      (MoqtSession.OnMaxSubscribeIdMessage (initialState .pubSub 10) 5).errorMsg = "") :=
  onMaxSubscribeId_role_and_monotonicity (initialState .pubSub 10) 5 rfl

/-- Claim C8, counterexample: the claim says every per-operation
refusal of an outgoing SUBSCRIBE never terminates the session; but on
a session where track alias 4 is already in use, Subscribe with
provided alias 4 returns false and terminates the session with
ProtocolViolation (error_ becomes non-empty). -/
theorem subscribe_alias_collision_closes_session :
    (MoqtSession.Subscribe aliasBusyState ["ns", "u"] (some 4) false
        (fun _ _ => true)).1 = false ∧
    (MoqtSession.Subscribe aliasBusyState ["ns", "u"] (some 4) false
        (fun _ _ => true)).2.errorMsg = "Provided track alias already in use" ∧
    (MoqtSession.Subscribe aliasBusyState ["ns", "u"] (some 4) false
        (fun _ _ => true)).2.closeCode = some MoqtError.protocolViolation := by
  refine ⟨rfl, rfl, rfl⟩

/-- Claim C8, amended: each of the four refusals of an outgoing
SUBSCRIBE (subscriber-only peer, next_subscribe_id_ at or above
peer_max_subscribe_id_, track name already subscribed, caller-supplied
alias already in use) makes Subscribe return false without sending a
SUBSCRIBE message and without installing anything in the three
upstream maps.  The first three leave the session state entirely
unchanged (in particular error_ stays empty); the alias collision
additionally closes the session with ProtocolViolation. -/
theorem subscribe_refusals (s : SessionState) (name : FullTrackName)
    (a : Nat) (acceptsDatagram : Bool) (inWindowFn : Nat → Nat → Bool)
    (herr : s.errorMsg = "") :
    (s.peerRole = .subscriber →
      ∀ pta, MoqtSession.Subscribe s name pta acceptsDatagram inWindowFn = (false, s)) ∧
    (s.peerMaxSubscribeId ≤ s.nextSubscribeId →
      ∀ pta, MoqtSession.Subscribe s name pta acceptsDatagram inWindowFn = (false, s)) ∧
    (s.upstreamByName.any (fun p => p.1 = name) = true →
      ∀ pta, MoqtSession.Subscribe s name pta acceptsDatagram inWindowFn = (false, s)) ∧
    (s.peerRole ≠ .subscriber → s.nextSubscribeId < s.peerMaxSubscribeId →
      s.upstreamByName.any (fun p => p.1 = name) = false →
      s.subscribeByAlias.any (fun p => p.1 = a) = true →
      (MoqtSession.Subscribe s name (some a) acceptsDatagram inWindowFn).1 = false ∧
      (MoqtSession.Subscribe s name (some a) acceptsDatagram inWindowFn).2.errorMsg =
        "Provided track alias already in use" ∧
      (MoqtSession.Subscribe s name (some a) acceptsDatagram inWindowFn).2.closeCode =
        some .protocolViolation ∧
      (MoqtSession.Subscribe s name (some a) acceptsDatagram inWindowFn).2.sentControl =
        s.sentControl ∧
      (MoqtSession.Subscribe s name (some a) acceptsDatagram inWindowFn).2.upstreamByName =
        s.upstreamByName ∧
      (MoqtSession.Subscribe s name (some a) acceptsDatagram inWindowFn).2.upstreamById =
        s.upstreamById ∧
      (MoqtSession.Subscribe s name (some a) acceptsDatagram inWindowFn).2.subscribeByAlias =
        s.subscribeByAlias) := by
  refine ⟨?_, ?_, ?_, ?_⟩
  · intro h pta
    simp [MoqtSession.Subscribe, h]
  · intro h pta
    by_cases h1 : s.peerRole = .subscriber <;>
      simp [MoqtSession.Subscribe, h, h1]
  · intro h pta
    by_cases h1 : s.peerRole = .subscriber <;>
      by_cases h2 : s.peerMaxSubscribeId ≤ s.nextSubscribeId <;>
        simp [MoqtSession.Subscribe, h, h1, h2]
  · intro h1 h2 h3 h4
    simp [MoqtSession.Subscribe, h1, h3, h4, Nat.not_le.mpr h2, MoqtSession.Error, herr]

/-- Concrete instantiation of subscribe_refusals on the session with
alias 4 busy. -/
theorem subscribe_refusals_witness :
    (aliasBusyState.peerRole = .subscriber →
      ∀ pta, MoqtSession.Subscribe aliasBusyState ["ns", "u"] pta false
        (fun _ _ => true) = (false, aliasBusyState)) ∧
    (aliasBusyState.peerMaxSubscribeId ≤ aliasBusyState.nextSubscribeId →
      ∀ pta, MoqtSession.Subscribe aliasBusyState ["ns", "u"] pta false
        (fun _ _ => true) = (false, aliasBusyState)) ∧
    (aliasBusyState.upstreamByName.any (fun p => p.1 = ["ns", "u"]) = true →
      ∀ pta, MoqtSession.Subscribe aliasBusyState ["ns", "u"] pta false
        (fun _ _ => true) = (false, aliasBusyState)) ∧
    (aliasBusyState.peerRole ≠ .subscriber →
      aliasBusyState.nextSubscribeId < aliasBusyState.peerMaxSubscribeId →
      aliasBusyState.upstreamByName.any (fun p => p.1 = ["ns", "u"]) = false →
      aliasBusyState.subscribeByAlias.any (fun p => p.1 = 4) = true →
      (MoqtSession.Subscribe aliasBusyState ["ns", "u"] (some 4) false
        (fun _ _ => true)).1 = false ∧
      (MoqtSession.Subscribe aliasBusyState ["ns", "u"] (some 4) false
        (fun _ _ => true)).2.errorMsg = "Provided track alias already in use" ∧
      (MoqtSession.Subscribe aliasBusyState ["ns", "u"] (some 4) false
        (fun _ _ => true)).2.closeCode = some .protocolViolation ∧
      (MoqtSession.Subscribe aliasBusyState ["ns", "u"] (some 4) false
        (fun _ _ => true)).2.sentControl = aliasBusyState.sentControl ∧
      (MoqtSession.Subscribe aliasBusyState ["ns", "u"] (some 4) false
        (fun _ _ => true)).2.upstreamByName = aliasBusyState.upstreamByName ∧
      (MoqtSession.Subscribe aliasBusyState ["ns", "u"] (some 4) false
        (fun _ _ => true)).2.upstreamById = aliasBusyState.upstreamById ∧
      (MoqtSession.Subscribe aliasBusyState ["ns", "u"] (some 4) false
        (fun _ _ => true)).2.subscribeByAlias = aliasBusyState.subscribeByAlias) :=
  subscribe_refusals aliasBusyState ["ns", "u"] 4 false (fun _ _ => true) rfl

/-- States with a non-empty error string and a closed transport absorb
every further event: Error and OnSessionClosed return immediately and
SendControlMessage finds no control stream. -/
theorem runEvents_fixed (rest : List SessionEvent) (s : SessionState)
    (herr : s.errorMsg ≠ "") (htr : s.transportOpen = false) :
    runEvents s rest = s := by
  induction rest generalizing s with
  | nil => rfl
  | cons e rest ih =>
    have hstep : stepEvent s e = s := by
      cases e with
      | errorCall code msg => simp [stepEvent, MoqtSession.Error, herr]
      | sessionClosed msg =>
        have : ({ s with transportOpen := false } : SessionState) = s := by
          cases s
          simp_all
        simp [stepEvent, MoqtSession.OnSessionClosed, this, herr]
      | sendMsg m => simp [stepEvent, MoqtSession.SendControlMessage, htr]
    rw [runEvents, hstep]
    exact ih s herr htr

/-- Claim C4: session close is single-shot.  From an open session, the
first close event (Error or OnSessionClosed, with the non-empty
message the code paths always supply) sets error_ to that message,
invokes session_terminated_callback exactly once, and sends no control
message; every subsequent Error, OnSessionClosed or control-message
send leaves the state untouched, so the callback runs exactly once
over the session lifetime and no control message is sent once error_
is non-empty. -/
theorem session_close_single_shot (s : SessionState) (herr : s.errorMsg = "")
    (e : SessionEvent) (hclose : e.isClose = true) (hmsg : e.msgOf ≠ "")
    (rest : List SessionEvent) :
    (stepEvent s e).errorMsg = e.msgOf ∧
    (stepEvent s e).terminatedCount = s.terminatedCount + 1 ∧
    (stepEvent s e).sentControl = s.sentControl ∧
    runEvents (stepEvent s e) rest = stepEvent s e := by
  cases e with
  | errorCall code msg =>
    refine ⟨?_, ?_, ?_, ?_⟩ <;>
      simp [stepEvent, SessionEvent.msgOf, MoqtSession.Error, herr]
    exact runEvents_fixed rest _ (by simp [MoqtSession.Error, herr]; exact hmsg)
      (by simp [MoqtSession.Error, herr])
  | sessionClosed msg =>
    refine ⟨?_, ?_, ?_, ?_⟩ <;>
      simp [stepEvent, SessionEvent.msgOf, MoqtSession.OnSessionClosed, herr]
    exact runEvents_fixed rest _
      (by simp [MoqtSession.OnSessionClosed, herr]; exact hmsg)
      (by simp [MoqtSession.OnSessionClosed, herr])
  | sendMsg m => simp [SessionEvent.isClose] at hclose

/-- Concrete instantiation of session_close_single_shot: a fresh
session closed by an Error call, then hit with a second Error, a
transport close, and a send attempt. -/
theorem session_close_single_shot_witness :
    (stepEvent (initialState .pubSub 10)
        (.errorCall .protocolViolation "first close")).errorMsg =
      (SessionEvent.errorCall .protocolViolation "first close").msgOf ∧
    (stepEvent (initialState .pubSub 10)
        (.errorCall .protocolViolation "first close")).terminatedCount =
      (initialState .pubSub 10).terminatedCount + 1 ∧
    (stepEvent (initialState .pubSub 10)
        (.errorCall .protocolViolation "first close")).sentControl =
      (initialState .pubSub 10).sentControl ∧
    runEvents
      (stepEvent (initialState .pubSub 10)
        (.errorCall .protocolViolation "first close"))
      [.errorCall .internalError "second close", .sessionClosed "third close",
       .sendMsg .clientSetup] =
      stepEvent (initialState .pubSub 10)
        (.errorCall .protocolViolation "first close") :=
  session_close_single_shot (initialState .pubSub 10) rfl
    (.errorCall .protocolViolation "first close") rfl (by decide)
    [.errorCall .internalError "second close", .sessionClosed "third close",
     .sendMsg .clientSetup]

/-- Claim C3: evaluation of the code at a failing input.  Starting
from a single subscription (subscriber priority 1, descending order)
with nothing queued, queueing a stream for (1, 5, 0) preserves the
invariant, but then queueing a stream for (1, 3, 0) — whose send order
is lower than the queued head — breaks it: AddQueuedOutgoingDataStream
compares the priority-masked stored head key against the full new send
order (priority bits included), concludes the head changed, and
replaces the session-queue entry by the send order of the new, lower
entry, while the per-subscription head is still the stream for
(1, 5, 0). -/
theorem addQueuedOutgoingDataStream_breaks_queue_invariant :
    schedInvariantB emptyQueueSched = true ∧
    schedInvariantB (AddQueuedOutgoingDataStream emptyQueueSched 7 ⟨1, 5, 0⟩) = true ∧
    schedInvariantB
      (AddQueuedOutgoingDataStream
        (AddQueuedOutgoingDataStream emptyQueueSched 7 ⟨1, 5, 0⟩) 7 ⟨1, 3, 0⟩) = false := by
  refine ⟨rfl, by decide, by decide⟩

/-- Claim C6: evaluation of the code at a failing input.  With
deliver_partial_objects false, a two-fragment object (0, 0) that is
dropped for being out of the window leaves its bytes in the
partial-object scratch (the early return skips the clear), so the next
object (0, 1) is delivered with payload abcdefgh instead of the
concatenation efgh of its own fragments. -/
theorem onObjectMessage_partial_object_leak :
    (runFragments false leakEnv ⟨"", false⟩ leakFragments).2 =
      [⟨0, 1, "abcdefgh", true⟩] ∧
    "abcdefgh" ≠ "ef" ++ "gh" := by
  refine ⟨by decide, by decide⟩

/-- Claim C5, counterexample: the claim says the loop advances
next_object_.object by one, but the code sets it to one past the
sequence of the object the cache returned, which the code itself
allows to be later than the requested one (the check of next_object_
at most the returned sequence).  With a cache answering the request
for (0, 0, 0) with the object (0, 0, 5), one loop iteration performs a
write and leaves next_object_.object at 6, not at 0 + 1. -/
theorem sendObjects_advance_not_by_one :
    (SendObjects skipCacheEnv 1 ⟨⟨0, 0, 0⟩, false⟩).2.writes.length = 1 ∧
    (SendObjects skipCacheEnv 1 ⟨⟨0, 0, 0⟩, false⟩).1.nextObject.object = 6 ∧
    (SendObjects skipCacheEnv 1 ⟨⟨0, 0, 0⟩, false⟩).1.nextObject.object ≠
      (⟨⟨0, 0, 0⟩, false⟩ : OutgoingCursor).nextObject.object + 1 := by
  refine ⟨by decide, by decide, by decide⟩

/-- Claim C5, amended: for a non-datagram track, while the stream can
accept bytes, SendObjects writes exactly the cached in-window objects:
every write is of a cached object at the requested coordinate with the
object fin_after_this as its FIN flag; the stream header goes out only
on the first write of the stream; each write is accompanied by a
stream priority update computed from the subscription at the requested
coordinate; a FIN is sent exactly when the next coordinate is still
cached but has left the window, stopping the loop; and after the last
write next_object_ carries the object id one past the object the cache
returned (equal to advancing by one whenever the cache returns exactly
the requested sequence). -/
theorem sendObjects_loop_behavior (env : OutgoingEnv) (capacity : Nat)
    (c : OutgoingCursor) (hpref : env.forwardingPreference ≠ .datagramPref) :
    (∀ w ∈ (SendObjects env capacity c).2.writes,
      env.cache w.requested = some w.obj ∧ env.inWindow w.requested = true ∧
      w.fin = w.obj.finAfterThis) ∧
    (c.headerWritten = false →
      (SendObjects env capacity c).2.writes.map WriteRec.isFirstOnStream =
        headerFlags (SendObjects env capacity c).2.writes.length) ∧
    (c.headerWritten = true →
      (SendObjects env capacity c).2.writes.map WriteRec.isFirstOnStream =
        List.replicate (SendObjects env capacity c).2.writes.length false) ∧
    ((SendObjects env capacity c).2.priorities =
      (SendObjects env capacity c).2.writes.map (fun w => env.sendOrder w.requested)) ∧
    ((SendObjects env capacity c).2.finSent = true →
      (env.cache (SendObjects env capacity c).1.nextObject).isSome = true ∧
      env.inWindow (SendObjects env capacity c).1.nextObject = false) ∧
    (∀ wl, (SendObjects env capacity c).2.writes.getLast? = some wl →
      (SendObjects env capacity c).1.nextObject =
        { wl.requested with object := wl.obj.sequence.object + 1 }) ∧
    ((SendObjects env capacity c).2.writes = [] → (SendObjects env capacity c).1 = c) := by
  induction capacity generalizing c with
  | zero => simp [SendObjects, headerFlags]
  | succ n ih =>
    cases hcache : env.cache c.nextObject with
    | none => simp [SendObjects, hcache, headerFlags]
    | some obj =>
      by_cases hwin : env.inWindow c.nextObject = true
      · have key : SendObjects env (n + 1) c =
            ((SendObjects env n
                ⟨{ c.nextObject with object := obj.sequence.object + 1 }, true⟩).1,
             ⟨(⟨!c.headerWritten, c.nextObject, obj, obj.finAfterThis⟩ : WriteRec) ::
                (SendObjects env n
                  ⟨{ c.nextObject with object := obj.sequence.object + 1 }, true⟩).2.writes,
              env.sendOrder c.nextObject ::
                (SendObjects env n
                  ⟨{ c.nextObject with object := obj.sequence.object + 1 }, true⟩).2.priorities,
              (SendObjects env n
                ⟨{ c.nextObject with object := obj.sequence.object + 1 }, true⟩).2.finSent⟩) := by
          simp [SendObjects, hcache, hwin, hpref]
        obtain ⟨ih1, ih2, ih3, ih4, ih5, ih6, ih7⟩ :=
          ih ⟨{ c.nextObject with object := obj.sequence.object + 1 }, true⟩
        rw [key]
        refine ⟨?_, ?_, ?_, ?_, ?_, ?_, ?_⟩
        · intro w hw
          rcases List.mem_cons.mp hw with h | h
          · subst h
            exact ⟨hcache, hwin, rfl⟩
          · exact ih1 w h
        · intro hh
          simp only [List.map_cons, List.length_cons, headerFlags, hh, Bool.not_false]
          congr 1
          simpa using ih3 rfl
        · intro hh
          simp only [List.map_cons, List.length_cons, List.replicate_succ, hh,
            Bool.not_true]
          congr 1
          simpa using ih3 rfl
        · simp only [List.map_cons, ih4]
        · exact ih5
        · intro wl hwl
          cases hws : (SendObjects env n
              ⟨{ c.nextObject with object := obj.sequence.object + 1 }, true⟩).2.writes with
          | nil =>
            rw [hws] at hwl
            simp only [List.getLast?_singleton, Option.some_inj] at hwl
            subst hwl
            rw [ih7 hws]
          | cons x xs =>
            rw [hws] at hwl
            rw [List.getLast?_cons_cons] at hwl
            exact ih6 wl (hws ▸ hwl)
        · intro habs
          exact absurd habs (by simp)
      · have key : SendObjects env (n + 1) c =
            (c, ⟨[], [], true⟩) := by
          simp [SendObjects, hcache, hwin]
        rw [key]
        refine ⟨by simp, by simp [headerFlags], by simp, by simp, ?_, by simp, fun _ => rfl⟩
        intro _
        refine ⟨by simp [hcache], ?_⟩
        simpa using hwin

/-- Concrete instantiation of sendObjects_loop_behavior: two cached
objects drained from a fresh stream with capacity three. -/
theorem sendObjects_loop_behavior_witness :
    (∀ w ∈ (SendObjects twoObjectEnv 3 ⟨⟨0, 0, 0⟩, false⟩).2.writes,
      twoObjectEnv.cache w.requested = some w.obj ∧
      twoObjectEnv.inWindow w.requested = true ∧
      w.fin = w.obj.finAfterThis) ∧
    ((⟨⟨0, 0, 0⟩, false⟩ : OutgoingCursor).headerWritten = false →
      (SendObjects twoObjectEnv 3 ⟨⟨0, 0, 0⟩, false⟩).2.writes.map
          WriteRec.isFirstOnStream =
        headerFlags (SendObjects twoObjectEnv 3 ⟨⟨0, 0, 0⟩, false⟩).2.writes.length) ∧
    ((⟨⟨0, 0, 0⟩, false⟩ : OutgoingCursor).headerWritten = true →
      (SendObjects twoObjectEnv 3 ⟨⟨0, 0, 0⟩, false⟩).2.writes.map
          WriteRec.isFirstOnStream =
        List.replicate (SendObjects twoObjectEnv 3 ⟨⟨0, 0, 0⟩, false⟩).2.writes.length
          false) ∧
    ((SendObjects twoObjectEnv 3 ⟨⟨0, 0, 0⟩, false⟩).2.priorities =
      (SendObjects twoObjectEnv 3 ⟨⟨0, 0, 0⟩, false⟩).2.writes.map
        (fun w => twoObjectEnv.sendOrder w.requested)) ∧
    ((SendObjects twoObjectEnv 3 ⟨⟨0, 0, 0⟩, false⟩).2.finSent = true →
      (twoObjectEnv.cache
          (SendObjects twoObjectEnv 3 ⟨⟨0, 0, 0⟩, false⟩).1.nextObject).isSome = true ∧
      twoObjectEnv.inWindow
        (SendObjects twoObjectEnv 3 ⟨⟨0, 0, 0⟩, false⟩).1.nextObject = false) ∧
    (∀ wl, (SendObjects twoObjectEnv 3 ⟨⟨0, 0, 0⟩, false⟩).2.writes.getLast? = some wl →
      (SendObjects twoObjectEnv 3 ⟨⟨0, 0, 0⟩, false⟩).1.nextObject =
        { wl.requested with object := wl.obj.sequence.object + 1 }) ∧
    ((SendObjects twoObjectEnv 3 ⟨⟨0, 0, 0⟩, false⟩).2.writes = [] →
      (SendObjects twoObjectEnv 3 ⟨⟨0, 0, 0⟩, false⟩).1 = ⟨⟨0, 0, 0⟩, false⟩) :=
  sendObjects_loop_behavior twoObjectEnv 3 ⟨⟨0, 0, 0⟩, false⟩ (by decide)

/-- The lexicographic order on sequences is reflexive. -/
theorem leB_refl (a : FullSequence) : FullSequence.leB a a = true := by
  simp [FullSequence.leB]

/-- Everything Backfill notifies comes from the cached object list. -/
theorem backfillLoop_subset (pref : MoqtForwardingPreference) :
    ∀ (objects : List FullSequence) (opened : List (Nat × Nat)),
      ∀ n ∈ backfillLoop pref objects opened, n ∈ objects := by
  intro objects
  induction objects with
  | nil => intro opened n hn; simp [backfillLoop] at hn
  | cons s rest ih =>
    intro opened n hn
    rw [backfillLoop] at hn
    by_cases hmem : reducedSequenceIndex pref s ∈ opened
    · rw [if_pos hmem] at hn
      exact List.mem_cons_of_mem s (ih opened n hn)
    · rw [if_neg hmem] at hn
      rcases List.mem_cons.mp hn with rfl | hn'
      · exact List.mem_cons_self n rest
      · exact List.mem_cons_of_mem s
          (ih (reducedSequenceIndex pref s :: opened) n hn')

/-- The mapping unit of every notified sequence was not yet in the
already_opened set the loop started with. -/
theorem backfillLoop_notOpened (pref : MoqtForwardingPreference) :
    ∀ (objects : List FullSequence) (opened : List (Nat × Nat)),
      ∀ n ∈ backfillLoop pref objects opened,
        reducedSequenceIndex pref n ∉ opened := by
  intro objects
  induction objects with
  | nil => intro opened n hn; simp [backfillLoop] at hn
  | cons s rest ih =>
    intro opened n hn
    rw [backfillLoop] at hn
    by_cases hmem : reducedSequenceIndex pref s ∈ opened
    · rw [if_pos hmem] at hn
      exact ih opened n hn
    · rw [if_neg hmem] at hn
      rcases List.mem_cons.mp hn with rfl | hn'
      · exact hmem
      · intro hc
        exact ih (reducedSequenceIndex pref s :: opened) n hn'
          (List.mem_cons_of_mem _ hc)

/-- No two notified sequences share a mapping unit. -/
theorem backfillLoop_pairwise (pref : MoqtForwardingPreference) :
    ∀ (objects : List FullSequence) (opened : List (Nat × Nat)),
      (backfillLoop pref objects opened).Pairwise
        (fun a b => reducedSequenceIndex pref a ≠ reducedSequenceIndex pref b) := by
  intro objects
  induction objects with
  | nil => intro opened; simp [backfillLoop]
  | cons s rest ih =>
    intro opened
    rw [backfillLoop]
    by_cases hmem : reducedSequenceIndex pref s ∈ opened
    · rw [if_pos hmem]
      exact ih opened
    · rw [if_neg hmem]
      refine List.pairwise_cons.mpr ⟨?_, ih _⟩
      intro b hb heq
      exact backfillLoop_notOpened pref rest
        (reducedSequenceIndex pref s :: opened) b hb
        (heq ▸ List.mem_cons_self _ _)

/-- Every cached mapping unit is either already opened or notified. -/
theorem backfillLoop_cover (pref : MoqtForwardingPreference) :
    ∀ (objects : List FullSequence) (opened : List (Nat × Nat)),
      ∀ s ∈ objects,
        reducedSequenceIndex pref s ∈ opened ∨
        ∃ n ∈ backfillLoop pref objects opened,
          reducedSequenceIndex pref n = reducedSequenceIndex pref s := by
  intro objects
  induction objects with
  | nil => intro opened s hs; simp at hs
  | cons a rest ih =>
    intro opened s hs
    rw [backfillLoop]
    by_cases hmem : reducedSequenceIndex pref a ∈ opened
    · rw [if_pos hmem]
      rcases List.mem_cons.mp hs with rfl | hs'
      · exact Or.inl hmem
      · exact ih opened s hs'
    · rw [if_neg hmem]
      rcases List.mem_cons.mp hs with rfl | hs'
      · exact Or.inr ⟨s, List.mem_cons_self s _, rfl⟩
      · rcases ih (reducedSequenceIndex pref a :: opened) s hs' with hin | ⟨n, hn, hkey⟩
        · rcases List.mem_cons.mp hin with heq | hin'
          · exact Or.inr ⟨a, List.mem_cons_self a _, heq.symm⟩
          · exact Or.inl hin'
        · exact Or.inr ⟨n, List.mem_cons_of_mem a hn, hkey⟩

/-- In a sorted cache listing, each notified sequence is the earliest
cached sequence of its mapping unit. -/
theorem backfillLoop_earliest (pref : MoqtForwardingPreference) :
    ∀ (objects : List FullSequence) (opened : List (Nat × Nat)),
      objects.Pairwise (fun a b => FullSequence.leB a b = true) →
      ∀ n ∈ backfillLoop pref objects opened, ∀ t ∈ objects,
        reducedSequenceIndex pref t = reducedSequenceIndex pref n →
        FullSequence.leB n t = true := by
  intro objects
  induction objects with
  | nil => intro opened _ n hn; simp [backfillLoop] at hn
  | cons s rest ih =>
    intro opened hpw n hn t ht hkey
    rcases List.pairwise_cons.mp hpw with ⟨hs, hrest⟩
    rw [backfillLoop] at hn
    by_cases hmem : reducedSequenceIndex pref s ∈ opened
    · rw [if_pos hmem] at hn
      rcases List.mem_cons.mp ht with rfl | ht'
      · exact absurd (hkey ▸ hmem) (backfillLoop_notOpened pref rest opened n hn)
      · exact ih opened hrest n hn t ht' hkey
    · rw [if_neg hmem] at hn
      rcases List.mem_cons.mp hn with rfl | hn'
      · rcases List.mem_cons.mp ht with rfl | ht'
        · exact leB_refl t
        · exact hs t ht'
      · rcases List.mem_cons.mp ht with rfl | ht'
        · have hno := backfillLoop_notOpened pref rest
            (reducedSequenceIndex pref t :: opened) n hn'
          exact absurd (hkey ▸ List.mem_cons_self _ opened) hno
        · exact ih (reducedSequenceIndex pref s :: opened) hrest n hn' t ht' hkey

/-- A list whose elements have pairwise-distinct keys keeps exactly
one element of any key it realises. -/
theorem filter_key_length_one {α κ : Type} [DecidableEq κ] (key : α → κ) :
    ∀ (l : List α),
      l.Pairwise (fun a b => key a ≠ key b) →
      ∀ u, (∃ n ∈ l, key n = u) →
        (l.filter (fun t => key t = u)).length = 1 := by
  intro l
  induction l with
  | nil => intro _ u hex; simp at hex
  | cons a l ih =>
    intro hpw u hex
    rcases List.pairwise_cons.mp hpw with ⟨ha, hl⟩
    by_cases hk : key a = u
    · have hnil : l.filter (fun t => key t = u) = [] := by
        rw [List.filter_eq_nil_iff]
        intro b hb
        simp only [decide_eq_true_eq]
        intro hb'
        exact ha b hb (hk.symm ▸ hb' ▸ rfl)
      simp [List.filter_cons, hk, hnil]
    · have hfil : (a :: l).filter (fun t => key t = u) =
          l.filter (fun t => key t = u) := by
        simp [List.filter_cons, hk]
      rw [hfil]
      rcases hex with ⟨n, hn, hkn⟩
      rcases List.mem_cons.mp hn with rfl | hn'
      · exact absurd hkn hk
      · exact ih hl u ⟨n, hn', hkn⟩

/-- Claim C7: Backfill iterates the sorted cached objects of the range
and invokes OnNewObjectAvailable exactly once per mapping unit
(ReducedSequenceIndex) present, namely with the earliest cached
sequence of that unit: every notification comes from the cache
listing, each unit realised in the listing receives exactly one
notification, and each notified sequence precedes (in the
lexicographic order) every cached sequence of its unit. -/
theorem backfill_once_per_mapping_unit (pref : MoqtForwardingPreference)
    (objects : List FullSequence)
    (hsorted : objects.Pairwise (fun a b => FullSequence.leB a b = true)) :
    (∀ n ∈ Backfill pref objects, n ∈ objects) ∧
    (∀ s ∈ objects,
      ((Backfill pref objects).filter
        (fun t => reducedSequenceIndex pref t = reducedSequenceIndex pref s)).length
        = 1) ∧
    (∀ n ∈ Backfill pref objects, ∀ t ∈ objects,
      reducedSequenceIndex pref t = reducedSequenceIndex pref n →
      FullSequence.leB n t = true) := by
  refine ⟨fun n hn => backfillLoop_subset pref objects [] n hn, ?_, ?_⟩
  · intro s hs
    refine filter_key_length_one (reducedSequenceIndex pref) (Backfill pref objects)
      (backfillLoop_pairwise pref objects []) (reducedSequenceIndex pref s) ?_
    rcases backfillLoop_cover pref objects [] s hs with hin | hex
    · simp at hin
    · exact hex
  · exact backfillLoop_earliest pref objects [] hsorted

/-- Concrete instantiation of backfill_once_per_mapping_unit: three
cached objects over two subgroup mapping units. -/
theorem backfill_once_per_mapping_unit_witness :
    (∀ n ∈ Backfill .subgroupPref [⟨1, 0, 0⟩, ⟨1, 0, 1⟩, ⟨2, 0, 0⟩],
      n ∈ [(⟨1, 0, 0⟩ : FullSequence), ⟨1, 0, 1⟩, ⟨2, 0, 0⟩]) ∧
    (∀ s ∈ [(⟨1, 0, 0⟩ : FullSequence), ⟨1, 0, 1⟩, ⟨2, 0, 0⟩],
      ((Backfill .subgroupPref [⟨1, 0, 0⟩, ⟨1, 0, 1⟩, ⟨2, 0, 0⟩]).filter
        (fun t => reducedSequenceIndex .subgroupPref t =
          reducedSequenceIndex .subgroupPref s)).length = 1) ∧
    (∀ n ∈ Backfill .subgroupPref [⟨1, 0, 0⟩, ⟨1, 0, 1⟩, ⟨2, 0, 0⟩],
      ∀ t ∈ [(⟨1, 0, 0⟩ : FullSequence), ⟨1, 0, 1⟩, ⟨2, 0, 0⟩],
        reducedSequenceIndex .subgroupPref t = reducedSequenceIndex .subgroupPref n →
        FullSequence.leB n t = true) :=
  backfill_once_per_mapping_unit .subgroupPref
    [⟨1, 0, 0⟩, ⟨1, 0, 1⟩, ⟨2, 0, 0⟩] (by decide)

/-- Error does not touch subscribe_by_alias_. -/
theorem error_keeps_alias (s : SessionState) (c : MoqtError) (m : String) :
    (MoqtSession.Error s c m).subscribeByAlias = s.subscribeByAlias := by
  unfold MoqtSession.Error
  split <;> rfl

/-- OnSessionClosed does not touch subscribe_by_alias_. -/
theorem onSessionClosed_keeps_alias (s : SessionState) (m : String) :
    (MoqtSession.OnSessionClosed s m).subscribeByAlias = s.subscribeByAlias := by
  unfold MoqtSession.OnSessionClosed
  split <;> rfl

/-- SendControlMessage does not touch subscribe_by_alias_. -/
theorem sendControl_keeps_alias (s : SessionState) (m : ControlMsg) :
    (MoqtSession.SendControlMessage s m).subscribeByAlias = s.subscribeByAlias := by
  unfold MoqtSession.SendControlMessage
  split <;> rfl

/-- GrantMoreSubscribes does not touch subscribe_by_alias_. -/
theorem grantMore_keeps_alias (s : SessionState) (n : Nat) :
    (MoqtSession.GrantMoreSubscribes s n).subscribeByAlias = s.subscribeByAlias := by
  unfold MoqtSession.GrantMoreSubscribes
  rw [sendControl_keeps_alias]

/-- ValidateSubscribeId does not touch subscribe_by_alias_. -/
theorem validate_keeps_alias (s : SessionState) (id : Nat) :
    (MoqtSession.ValidateSubscribeId s id).2.subscribeByAlias = s.subscribeByAlias := by
  unfold MoqtSession.ValidateSubscribeId
  split_ifs <;> simp [error_keeps_alias]

/-- OnMaxSubscribeIdMessage does not touch subscribe_by_alias_. -/
theorem maxSubscribeId_keeps_alias (s : SessionState) (v : Nat) :
    (MoqtSession.OnMaxSubscribeIdMessage s v).subscribeByAlias = s.subscribeByAlias := by
  unfold MoqtSession.OnMaxSubscribeIdMessage
  split_ifs <;> simp [error_keeps_alias]

/-- OnSubscribeMessage does not touch subscribe_by_alias_. -/
theorem onSubscribeMessage_keeps_alias (env : ControlEnv) (s : SessionState)
    (m : MoqtSubscribeMsg) :
    (MoqtSession.OnSubscribeMessage env s m).subscribeByAlias = s.subscribeByAlias := by
  have hv := validate_keeps_alias s m.subscribeId
  simp only [MoqtSession.OnSubscribeMessage]
  split
  · exact hv
  · split
    · simp [sendControl_keeps_alias, hv]
    · split_ifs <;> simp [sendControl_keeps_alias, error_keeps_alias, hv]

/-- OnFetchMessage does not touch subscribe_by_alias_. -/
theorem onFetchMessage_keeps_alias (env : ControlEnv) (s : SessionState)
    (m : MoqtFetchMsg) :
    (MoqtSession.OnFetchMessage env s m).subscribeByAlias = s.subscribeByAlias := by
  have hv := validate_keeps_alias s m.subscribeId
  simp only [MoqtSession.OnFetchMessage]
  split
  · exact hv
  · split
    · simp [sendControl_keeps_alias, hv]
    · split_ifs <;> simp [sendControl_keeps_alias, hv]

/-- OnDatagramReceived does not touch subscribe_by_alias_. -/
theorem datagram_keeps_alias (s : SessionState) (d : DatagramMsg) :
    (MoqtSession.OnDatagramReceived s d).1.subscribeByAlias = s.subscribeByAlias := by
  simp only [MoqtSession.OnDatagramReceived]
  split
  · simp [error_keeps_alias]
  · split
    · rfl
    · split_ifs <;> simp [error_keeps_alias]

/-- Subscribe only ever adds SubscribeRemoteTrack entries (is_fetch
false) to subscribe_by_alias_. -/
theorem subscribe_alias_entries (s : SessionState) (name : FullTrackName)
    (pta : Option Nat) (dg : Bool) (win : Nat → Nat → Bool)
    (h : ∀ p ∈ s.subscribeByAlias, p.2.isFetchFlag = false) :
    ∀ p ∈ (MoqtSession.Subscribe s name pta dg win).2.subscribeByAlias,
      p.2.isFetchFlag = false := by
  intro p hp
  unfold MoqtSession.Subscribe at hp
  split_ifs at hp
  · exact h p hp
  · exact h p hp
  · exact h p hp
  · simp only [error_keeps_alias] at hp
    exact h p hp
  · simp only [sendControl_keeps_alias, List.mem_append, List.mem_singleton] at hp
    rcases hp with hold | hnew
    · exact h p hold
    · subst hnew
      rfl

/-- Unsubscribe only removes entries from subscribe_by_alias_. -/
theorem unsubscribe_alias_entries (s : SessionState) (name : FullTrackName)
    (h : ∀ p ∈ s.subscribeByAlias, p.2.isFetchFlag = false) :
    ∀ p ∈ (MoqtSession.Unsubscribe s name).subscribeByAlias,
      p.2.isFetchFlag = false := by
  intro p hp
  unfold MoqtSession.Unsubscribe at hp
  split at hp
  · exact h p hp
  · simp only [sendControl_keeps_alias] at hp
    exact h p (List.mem_of_mem_filter hp)

/-- OnSubscribeErrorMessage removes alias entries and, on retry,
re-subscribes (adding an is_fetch-false entry). -/
theorem onSubscribeError_alias_entries (s : SessionState) (subscribeId : Nat)
    (retry : Bool) (suggested : Nat) (allowed : Bool)
    (h : ∀ p ∈ s.subscribeByAlias, p.2.isFetchFlag = false) :
    ∀ p ∈ (MoqtSession.OnSubscribeErrorMessage s subscribeId retry suggested
        allowed).subscribeByAlias,
      p.2.isFetchFlag = false := by
  intro p hp
  unfold MoqtSession.OnSubscribeErrorMessage at hp
  split at hp
  · exact h p hp
  · split at hp
    · simp only [error_keeps_alias] at hp
      exact h p hp
    · split at hp
      · simp only [error_keeps_alias] at hp
        exact h p hp
      · have hp' := List.mem_of_mem_filter hp
        split at hp'
        · refine subscribe_alias_entries _ _ _ _ _ ?_ p hp'
          intro q hq
          exact h q hq
        · exact h p hp'

/-- In every reachable session state, every entry of
subscribe_by_alias_ is a SubscribeRemoteTrack (is_fetch false). -/
theorem reachable_alias_not_fetch {s : SessionState} (h : Reachable s) :
    ∀ p ∈ s.subscribeByAlias, p.2.isFetchFlag = false := by
  induction h with
  | init role maxId => simp [initialState]
  | errorCall code msg _ ih =>
    intro p hp
    rw [error_keeps_alias] at hp
    exact ih p hp
  | sessionClosed msg _ ih =>
    intro p hp
    rw [onSessionClosed_keeps_alias] at hp
    exact ih p hp
  | sendControl m _ ih =>
    intro p hp
    rw [sendControl_keeps_alias] at hp
    exact ih p hp
  | grantMore n _ ih =>
    intro p hp
    rw [grantMore_keeps_alias] at hp
    exact ih p hp
  | validateId id _ ih =>
    intro p hp
    rw [validate_keeps_alias] at hp
    exact ih p hp
  | maxSubscribeId v _ ih =>
    intro p hp
    rw [maxSubscribeId_keeps_alias] at hp
    exact ih p hp
  | subscribeCall name pta dg win _ ih =>
    exact subscribe_alias_entries _ _ _ _ _ ih
  | unsubscribeCall name _ ih =>
    exact unsubscribe_alias_entries _ _ ih
  | subscribeErrorMsg subscribeId retry suggested allowed _ ih =>
    exact onSubscribeError_alias_entries _ _ _ _ _ ih
  | subscribeMsg env m _ ih =>
    intro p hp
    rw [onSubscribeMessage_keeps_alias] at hp
    exact ih p hp
  | fetchMsg env m _ ih =>
    intro p hp
    rw [onFetchMessage_keeps_alias] at hp
    exact ih p hp
  | datagram d _ ih =>
    intro p hp
    rw [datagram_keeps_alias] at hp
    exact ih p hp

/-- Claim C9: in every reachable session state, the track resolved by
RemoteTrackByAlias inside OnDatagramReceived is never a fetch —
subscribe_by_alias_ only ever holds entries created by Subscribe — so
the QUICHE_CHECK assertion branch of OnDatagramReceived is
unreachable. -/
theorem datagram_track_never_fetch {s : SessionState} (hreach : Reachable s)
    (d : DatagramMsg) :
    (MoqtSession.OnDatagramReceived s d).2 ≠ .checkFailed := by
  have hinv := reachable_alias_not_fetch hreach
  unfold MoqtSession.OnDatagramReceived
  split
  · simp
  · cases hfind : MoqtSession.RemoteTrackByAlias s d.trackAlias with
    | none => simp [hfind]
    | some t =>
      have ht : t.isFetchFlag = false := by
        unfold MoqtSession.RemoteTrackByAlias at hfind
        cases hf : s.subscribeByAlias.find? (fun p => p.1 = d.trackAlias) with
        | none => rw [hf] at hfind; simp at hfind
        | some p =>
          rw [hf] at hfind
          simp at hfind
          subst hfind
          exact hinv p (List.mem_of_find?_eq_some hf)
      simp only [hfind]
      split_ifs with h1 h2 h3 <;> simp_all

/-- Concrete instantiation of datagram_track_never_fetch on the
reachable session with one subscribed track (alias 0) receiving a
datagram for that alias. -/
theorem datagram_track_never_fetch_witness :
    (MoqtSession.OnDatagramReceived oneSubscribeState ⟨true, 0, 1, 1⟩).2 ≠
      .checkFailed :=
  datagram_track_never_fetch
    (Reachable.subscribeCall ["ns", "a"] none true (fun _ _ => true)
      (Reachable.maxSubscribeId 3 (Reachable.init .pubSub 5)))
    ⟨true, 0, 1, 1⟩

end Moqt
